import Mathlib

set_option maxRecDepth 100000

/-!
Verification of the natural-language specification of acme-dns-certbot-hook
against a shallow embedding of src/acme-dns-auth.py (and, for the
configuration resolver that is exercised only by src/tests, a model built
from the specification).

Conventions of the embedding:
  - Python strings are Lean `String`s; machine integers do not occur.
  - JSON values (the results of `json.loads` / arguments of `json.dumps`)
    are modelled by the inductive `Json` below, with `Json.dumps` modelling
    Python's `json.dumps` with its default separators and `ensure_ascii`,
    and `Json.dumpsSorted2` modelling `json.dumps(x, indent=2, sort_keys=True)`.
  - `jsonParse` models `json.loads` (restricted to the standard JSON grammar;
    it does not accept Python's NaN/Infinity extensions and does not validate
    the no-leading-zero rule for numbers, neither of which any claim touches).
  - Fallible Python code (raised exceptions) is modelled with `Except PyErr`.
  - The filesystem state relevant to `Storage` is the inductive `FileState`.
  - The two outbound HTTP calls are modelled by passing the response each call
    would receive (`Resp`) as an explicit input.
-/

/-- A JSON value, the result type of `json.loads`. Numbers keep their source
text (the program never does arithmetic on them, and `json.dumps` echoes the
numeral), which keeps the model exact without a numeric tower. Objects keep
their members in insertion order, as Python dicts do. -/
inductive Json where
  | null
  | bool (b : Bool)
  | num (raw : String)
  | str (s : String)
  | arr (elems : List Json)
  | obj (members : List (String × Json))

/-- Lowercase hexadecimal digit, as emitted by Python's json escaping. -/
def hexDigit (n : Nat) : Char :=
  if n < 10 then Char.ofNat (48 + n) else Char.ofNat (87 + n)

/-- Four lowercase hex digits, for json \uXXXX escapes. -/
def hex4 (n : Nat) : String :=
  ⟨[hexDigit (n / 4096 % 16), hexDigit (n / 256 % 16), hexDigit (n / 16 % 16), hexDigit (n % 16)]⟩

/-- Escape one character the way Python `json.dumps` (default
`ensure_ascii=True`) does inside a string literal. -/
def escChar (c : Char) : String :=
  if c == '"' then "\\\""
  else if c == '\\' then "\\\\"
  else if c == '\n' then "\\n"
  else if c == '\t' then "\\t"
  else if c == '\r' then "\\r"
  else if c.toNat == 8 then "\\b"
  else if c.toNat == 12 then "\\f"
  else if c.toNat < 32 then "\\u" ++ hex4 c.toNat
  else if c.toNat < 127 then ⟨[c]⟩
  else if c.toNat < 65536 then "\\u" ++ hex4 c.toNat
  else "\\u" ++ hex4 (55296 + (c.toNat - 65536) / 1024)
       ++ "\\u" ++ hex4 (56320 + (c.toNat - 65536) % 1024)

/-- A JSON string literal as Python `json.dumps` renders it. -/
def escString (s : String) : String :=
  "\"" ++ String.join (s.data.map escChar) ++ "\""

mutual

/-- Python `json.dumps(x)` with default options: separators are a comma plus
space and a colon plus space, object members in dict insertion order. -/
def Json.dumps : Json → String
  | .null => "null"
  | .bool b => if b then "true" else "false"
  | .num raw => raw
  | .str s => escString s
  | .arr xs => "[" ++ Json.dumpsElems xs ++ "]"
  | .obj kvs => "\x7b" ++ Json.dumpsMembers kvs ++ "\x7d"

/-- Comma-separated rendering of array elements for `Json.dumps`. -/
def Json.dumpsElems : List Json → String
  | [] => ""
  | [x] => Json.dumps x
  | x :: y :: rest => Json.dumps x ++ ", " ++ Json.dumpsElems (y :: rest)

/-- Comma-separated rendering of object members for `Json.dumps`. -/
def Json.dumpsMembers : List (String × Json) → String
  | [] => ""
  | [(k, v)] => escString k ++ ": " ++ Json.dumps v
  | (k, v) :: m :: rest =>
      escString k ++ ": " ++ Json.dumps v ++ ", " ++ Json.dumpsMembers (m :: rest)

end

example : Json.dumps (.obj [("allowfrom", .arr [.str "192.168.1.0/24", .str "10.0.0.0/8"])])
    = "\x7b\"allowfrom\": [\"192.168.1.0/24\", \"10.0.0.0/8\"]\x7d" := rfl

example : Json.dumps (.obj []) = "\x7b\x7d" := rfl

/-- Code-point comparison of character lists; Python compares strings this
way (`sort_keys=True` sorts object keys with it). -/
def charsLe : List Char → List Char → Bool
  | [], _ => true
  | _ :: _, [] => false
  | a :: as, b :: bs =>
      if a.toNat < b.toNat then true
      else if b.toNat < a.toNat then false
      else charsLe as bs

/-- Python string `<=` (lexicographic by code point). -/
def strLe (a b : String) : Bool := charsLe a.data b.data

/-- Insert one member into a key-sorted member list, keeping the sort stable. -/
def insortKv (p : String × Json) : List (String × Json) → List (String × Json)
  | [] => [p]
  | q :: rest => if strLe p.1 q.1 then p :: q :: rest else q :: insortKv p rest

/-- Stable sort of object members by key, modelling `sort_keys=True`. -/
def sortKvs : List (String × Json) → List (String × Json)
  | [] => []
  | p :: rest => insortKv p (sortKvs rest)

/-- The indentation Python emits at nesting depth `n` when `indent=2`. -/
def ind2 (n : Nat) : String := ⟨List.replicate (2 * n) ' '⟩

mutual

/-- Recursively sort every object's member list by key. Serializing the
result in the given order equals Python's serialize-with-`sort_keys=True`
of the original value. -/
def Json.sortAll : Json → Json
  | .null => .null
  | .bool b => .bool b
  | .num raw => .num raw
  | .str s => .str s
  | .arr xs => .arr (Json.sortAllElems xs)
  | .obj kvs => .obj (sortKvs (Json.sortAllMembers kvs))

/-- `Json.sortAll` mapped over array elements. -/
def Json.sortAllElems : List Json → List Json
  | [] => []
  | x :: xs => Json.sortAll x :: Json.sortAllElems xs

/-- `Json.sortAll` mapped over object member values. -/
def Json.sortAllMembers : List (String × Json) → List (String × Json)
  | [] => []
  | (k, v) :: rest => (k, Json.sortAll v) :: Json.sortAllMembers rest

end

mutual

/-- Rendering core of Python `json.dumps(x, indent=2)` at nesting level
`lvl`: items are placed on their own lines indented by two spaces per level;
empty containers stay on one line; members keep the given order. -/
def Json.dumpsInd : Nat → Json → String
  | _, .null => "null"
  | _, .bool b => if b then "true" else "false"
  | _, .num raw => raw
  | _, .str s => escString s
  | _, .arr [] => "[]"
  | lvl, .arr (x :: xs) =>
      "[\n" ++ Json.dumpsIndElems (lvl + 1) (x :: xs) ++ "\n" ++ ind2 lvl ++ "]"
  | _, .obj [] => "\x7b\x7d"
  | lvl, .obj (m :: ms) =>
      "\x7b\n" ++ Json.dumpsIndMembers (lvl + 1) (m :: ms) ++ "\n" ++ ind2 lvl ++ "\x7d"

/-- Indented rendering of array elements, joined by a comma and newline. -/
def Json.dumpsIndElems : Nat → List Json → String
  | _, [] => ""
  | lvl, [x] => ind2 lvl ++ Json.dumpsInd lvl x
  | lvl, x :: y :: rest =>
      ind2 lvl ++ Json.dumpsInd lvl x ++ ",\n" ++ Json.dumpsIndElems lvl (y :: rest)

/-- Indented rendering of object members, joined by a comma and newline. -/
def Json.dumpsIndMembers : Nat → List (String × Json) → String
  | _, [] => ""
  | lvl, [(k, v)] => ind2 lvl ++ escString k ++ ": " ++ Json.dumpsInd lvl v
  | lvl, (k, v) :: m :: rest =>
      ind2 lvl ++ escString k ++ ": " ++ Json.dumpsInd lvl v ++ ",\n"
        ++ Json.dumpsIndMembers lvl (m :: rest)

end

/-- `json.dumps(x, indent=2, sort_keys=True)` as used for the update-error
diagnostics in `AcmeDnsClient.update_txt_record`. -/
def Json.dumpsSorted2 (j : Json) : String := Json.dumpsInd 0 (Json.sortAll j)

example : Json.dumpsSorted2 (.obj [("error", .str "x")])
    = "\x7b\n  \"error\": \"x\"\n\x7d" := rfl

example : Json.dumpsSorted2 (.obj [("b", .num "1"), ("a", .obj [("d", .num "2"), ("c", .null)])])
    = "\x7b\n  \"a\": \x7b\n    \"c\": null,\n    \"d\": 2\n  \x7d,\n  \"b\": 1\n\x7d" := rfl

/-- JSON whitespace, as accepted between tokens by `json.loads`. -/
def isJsonWs (c : Char) : Bool := c == ' ' || c == '\n' || c == '\t' || c == '\r'

/-- Drop leading JSON whitespace. -/
def skipWs : List Char → List Char
  | [] => []
  | c :: cs => if isJsonWs c then skipWs cs else c :: cs

/-- ASCII decimal digit test. -/
def isDigitCh (c : Char) : Bool := 48 ≤ c.toNat && c.toNat ≤ 57

/-- Split off a leading run of decimal digits. -/
def takeDigits : List Char → List Char × List Char
  | [] => ([], [])
  | c :: cs =>
      if isDigitCh c then
        let p := takeDigits cs
        (c :: p.1, p.2)
      else ([], c :: cs)

/-- Numeric value of one hex digit, if the character is one. -/
def hexVal (c : Char) : Option Nat :=
  if 48 ≤ c.toNat && c.toNat ≤ 57 then some (c.toNat - 48)
  else if 97 ≤ c.toNat && c.toNat ≤ 102 then some (c.toNat - 87)
  else if 65 ≤ c.toNat && c.toNat ≤ 70 then some (c.toNat - 55)
  else none

/-- Parse the body of a JSON string literal after its opening quote,
returning the decoded characters and the input after the closing quote.
`\uXXXX` escapes become the character with that code (astral characters
written as surrogate pairs are out of scope for this model; no input of
this program carries them). -/
def parseStrBody : List Char → Option (List Char × List Char)
  | [] => none
  | c :: cs =>
      if c == '"' then some ([], cs)
      else if c == '\\' then
        match cs with
        | [] => none
        | e :: cs' =>
            if e == 'u' then
              match cs' with
              | h1 :: h2 :: h3 :: h4 :: cs'' =>
                  match hexVal h1, hexVal h2, hexVal h3, hexVal h4 with
                  | some a, some b, some d, some f =>
                      (fun p => (Char.ofNat (4096 * a + 256 * b + 16 * d + f) :: p.1, p.2))
                        <$> parseStrBody cs''
                  | _, _, _, _ => none
              | _ => none
            else
              let decoded : Option Char :=
                if e == '"' then some '"'
                else if e == '\\' then some '\\'
                else if e == '/' then some '/'
                else if e == 'n' then some '\n'
                else if e == 't' then some '\t'
                else if e == 'r' then some '\r'
                else if e == 'b' then some (Char.ofNat 8)
                else if e == 'f' then some (Char.ofNat 12)
                else none
              match decoded with
              | some ch => (fun p => (ch :: p.1, p.2)) <$> parseStrBody cs'
              | none => none
      else (fun p => (c :: p.1, p.2)) <$> parseStrBody cs

/-- Parse a JSON number, returning its raw text (sign, integer part,
optional fraction, optional exponent). The model does not re-check the
no-leading-zero rule, a strictness of `json.loads` no claim depends on. -/
def parseNum (input : List Char) : Option (String × List Char) :=
  let (sign, rest0) :=
    match input with
    | '-' :: cs => (['-'], cs)
    | cs => (([] : List Char), cs)
  let (intPart, rest1) := takeDigits rest0
  if intPart.isEmpty then none
  else
    let (fracPart, rest2) :=
      match rest1 with
      | '.' :: cs =>
          let p := takeDigits cs
          if p.1.isEmpty then (none, rest1) else (some ('.' :: p.1), p.2)
      | _ => (none, rest1)
    match fracPart, rest2 with
    | none, '.' :: _ => none
    | _, _ =>
        let fracChars := fracPart.getD []
        let (expPart, rest3) :=
          match rest2 with
          | e :: cs =>
              if e == 'e' || e == 'E' then
                let (esign, cs') :=
                  match cs with
                  | s :: cs'' => if s == '+' || s == '-' then ([s], cs'') else (([] : List Char), cs)
                  | [] => ([], cs)
                let p := takeDigits cs'
                if p.1.isEmpty then (none, rest2) else (some (e :: (esign ++ p.1)), p.2)
              else (none, rest2)
          | [] => (none, rest2)
        match expPart, rest3 with
        | none, e :: _ =>
            if e == 'e' || e == 'E' then none
            else some (⟨sign ++ intPart ++ fracChars⟩, rest3)
        | _, _ => some (⟨sign ++ intPart ++ fracChars ++ expPart.getD []⟩, rest3)

mutual

/-- Recursive-descent JSON value parser, the core of the `json.loads` model.
The fuel argument strictly bounds the recursion depth; `jsonParse` passes
enough for any input of its length. -/
def parseVal : Nat → List Char → Option (Json × List Char)
  | 0, _ => none
  | fuel + 1, input =>
      match skipWs input with
      | [] => none
      | c :: cs =>
          if c == 'n' then
            match cs with
            | 'u' :: 'l' :: 'l' :: rest => some (.null, rest)
            | _ => none
          else if c == 't' then
            match cs with
            | 'r' :: 'u' :: 'e' :: rest => some (.bool true, rest)
            | _ => none
          else if c == 'f' then
            match cs with
            | 'a' :: 'l' :: 's' :: 'e' :: rest => some (.bool false, rest)
            | _ => none
          else if c == '"' then
            (fun p => (Json.str ⟨p.1⟩, p.2)) <$> parseStrBody cs
          else if c == '[' then
            match skipWs cs with
            | ']' :: rest => some (.arr [], rest)
            | rest => (fun p => (Json.arr p.1, p.2)) <$> parseElems fuel rest
          else if c == '\x7b' then
            match skipWs cs with
            | '\x7d' :: rest => some (.obj [], rest)
            | rest => (fun p => (Json.obj p.1, p.2)) <$> parseMembers fuel rest
          else if c == '-' || isDigitCh c then
            (fun p => (Json.num p.1, p.2)) <$> parseNum (c :: cs)
          else none

/-- Parse the elements of a nonempty JSON array, up to and including the
closing bracket. -/
def parseElems : Nat → List Char → Option (List Json × List Char)
  | 0, _ => none
  | fuel + 1, input =>
      match parseVal fuel input with
      | none => none
      | some (v, rest) =>
          match skipWs rest with
          | ',' :: rest' =>
              (fun p => (v :: p.1, p.2)) <$> parseElems fuel rest'
          | ']' :: rest' => some ([v], rest')
          | _ => none

/-- Parse the members of a nonempty JSON object, up to and including the
closing brace. -/
def parseMembers : Nat → List Char → Option (List (String × Json) × List Char)
  | 0, _ => none
  | fuel + 1, input =>
      match skipWs input with
      | '"' :: cs =>
          match parseStrBody cs with
          | none => none
          | some (key, rest) =>
              match skipWs rest with
              | ':' :: rest' =>
                  match parseVal fuel rest' with
                  | none => none
                  | some (v, rest'') =>
                      match skipWs rest'' with
                      | ',' :: rest3 =>
                          (fun p => ((⟨key⟩, v) :: p.1, p.2)) <$> parseMembers fuel rest3
                      | '\x7d' :: rest3 => some ([(⟨key⟩, v)], rest3)
                      | _ => none
              | _ => none
      | _ => none

end

/-- Model of Python `json.loads`: parse one JSON value surrounded by
optional whitespace; anything else (including the empty string) is a parse
failure, which Python reports by raising `ValueError`. Duplicate object
keys (Python: last wins) do not occur in any input this development uses,
so members are kept as written. -/
def jsonParse (s : String) : Option Json :=
  match parseVal (4 * s.data.length + 8) s.data with
  | some (v, rest) => if (skipWs rest).isEmpty then some v else none
  | none => none

example : jsonParse "\x7b\"subdomain\": \"abc\", \"n\": [1, -2.5e3, true]\x7d"
    = some (.obj [("subdomain", .str "abc"), ("n", .arr [.num "1", .num "-2.5e3", .bool true])]) := rfl

example : jsonParse "" = none := rfl

example : jsonParse "\x7b invalid json \x7d" = none := rfl

example : jsonParse "  null " = some .null := rfl

example : jsonParse "\"a\\u0041\\nb\"" = some (.str "aA\nb") := rfl

/-- The Python exceptions the script can raise. `str(e)` of a
`RuntimeError`/`ValueError` is its message; `str(KeyError(k))` is the repr
of the key. The message of a `json` decode error and of the `TypeError`
from subscripting a non-dict depend on Python runtime internals; they are
kept abstract (no claim inspects their text). -/
inductive PyErr where
  | runtimeError (msg : String)
  | valueError (msg : String)
  | keyError (key : String)
  | jsonDecodeError
  | typeError

/-- What `print(str(e))` at the bottom of `main` writes for each exception.
For the two runtime-internal messages a fixed representative text stands in
(no claim depends on it). -/
def pyErrStr : PyErr → String
  | .runtimeError msg => msg
  | .valueError msg => msg
  | .keyError key => "'" ++ key ++ "'"
  | .jsonDecodeError => "Expecting value: line 1 column 1 (char 0)"
  | .typeError => "'NoneType' object is not subscriptable"

/-- Python truthiness of a decoded JSON value, used by
`if FORCE_REGISTER or not account:`. For numbers, a textual zero test
stands in for numeric zero (exact for every numeral without an exponent;
the program never meets exponent numerals here). -/
def pyTruthy : Json → Bool
  | .null => false
  | .bool b => b
  | .num raw => !(raw.data.all fun c => c == '0' || c == '.' || c == '-' || c == '+')
  | .str s => !s.isEmpty
  | .arr xs => !xs.isEmpty
  | .obj kvs => !kvs.isEmpty

/-- First-match association-list lookup, modelling `d[key]`-style access on a
Python dict built by this program (whose keys are distinct). -/
def assocGet {α : Type} (key : String) : List (String × α) → Option α
  | [] => none
  | (k, v) :: rest => if key == k then some v else assocGet key rest

/-- Python dict assignment `d[key] = value`: replace in place if the key is
present (keeping insertion order), else append. -/
def assocPut (key : String) (value : Json) : List (String × Json) → List (String × Json)
  | [] => [(key, value)]
  | (k, v) :: rest =>
      if k == key then (key, value) :: rest else (k, v) :: assocPut key value rest

/-- Python `account[key]` on a decoded JSON value: a missing key raises
`KeyError`; subscripting a non-dict raises `TypeError`. -/
def Json.getField : Json → String → Except PyErr Json
  | .obj kvs, key =>
      match assocGet key kvs with
      | some v => .ok v
      | none => .error (.keyError key)
  | _, _ => .error .typeError

/-- Python `str()` of a decoded JSON value as interpolated by
`'...'.format(...)`: a `str` interpolates its characters; every value this
program interpolates is a `str` (for other shapes Python would print a
repr, which the model approximates by the JSON rendering). -/
def pyStr : Json → String
  | .str s => s
  | other => Json.dumps other

/-- Source line 12: `ACMEDNS_URL = 'https://auth.acme-dns.io'`. -/
def ACMEDNS_URL : String := "https://auth.acme-dns.io"

/-- Source line 14: `STORAGE_PATH = '/etc/letsencrypt/acmedns.json'`. -/
def STORAGE_PATH : String := "/etc/letsencrypt/acmedns.json"

/-- Source lines 25-26: strip a leading `*.` (one layer only, exactly like
`DOMAIN[2:]` after `DOMAIN.startswith('*.')`); also the body of
`Storage.put`'s key sanitization (lines 123-124). -/
def startsWithStar (s : String) : Bool :=
  match s.data with
  | '*' :: '.' :: _ => true
  | _ => false

/-- One wildcard-stripping step, `key[2:] if key.startswith('*.') else key`. -/
def stripWildcard (s : String) : String :=
  if startsWithStar s then ⟨s.data.drop 2⟩ else s

example : stripWildcard "*.example.com" = "example.com" := rfl
example : stripWildcard "example.com" = "example.com" := rfl
example : stripWildcard "*.*.example.com" = "*.example.com" := rfl

/-- The state of the storage file as `Storage.load` can meet it: missing,
present but unreadable (open fails with `OSError` while `os.path.isfile` is
true), or readable with the given content. -/
inductive FileState where
  | absent
  | unreadable
  | readable (content : String)

/-- `Storage.load` (source lines 91-107): a missing file leaves `filedata`
empty and falls through to the empty dict; an unreadable existing file
raises `ValueError`; readable content is parsed by `json.loads`, a parse
failure raising the corruption `RuntimeError` only when the content is
non-empty. -/
def Storage.load : FileState → Except PyErr Json
  | .absent => .ok (.obj [])
  | .unreadable => .error (.valueError "ERROR: Storage file exists but cannot be read")
  | .readable content =>
      match jsonParse content with
      | some v => .ok v
      | none =>
          if 0 < content.length then .error (.runtimeError "ERROR: Storage JSON is corrupted")
          else .ok (.obj [])

/-- `Storage.put` (source lines 119-125) on the underlying member list:
strip one leading `*.` from the key, then assign. -/
def Storage.put (key : String) (value : Json) (data : List (String × Json)) :
    List (String × Json) :=
  assocPut (stripWildcard key) value data

/-- `Storage.fetch` (source lines 127-132): `self._data[key]`, with
`KeyError` caught and turned into `None`; subscripting a non-dict store
raises `TypeError`, which is not caught there. -/
def Storage.fetch (key : String) : Json → Except PyErr (Option Json)
  | .obj kvs => .ok (assocGet key kvs)
  | _ => .error .typeError

/-- An HTTP response as the script observes it: the status code and the
body text; `res.json()` is the body parsed by the json model. -/
structure Resp where
  status : Nat
  text : String

/-- `res.json()` of the requests library: parse the body as JSON, raising a
decode error on failure. -/
def Resp.json (r : Resp) : Option Json := jsonParse r.text

/-- The outgoing registration call: its URL and optional body
(`data=json.dumps({'allowfrom': allowfrom})`). -/
structure RegisterReq where
  url : String
  body : Option String

/-- `AcmeDnsClient.register_account` request construction (source lines
42-47): a non-empty `allowfrom` list is sent as the JSON body
`{"allowfrom": [...]}`; an empty one means no body at all. -/
def registerRequest (allowfrom : List String) : RegisterReq :=
  if allowfrom.isEmpty then
    { url := ACMEDNS_URL ++ "/register", body := none }
  else
    { url := ACMEDNS_URL ++ "/register"
      body := some (Json.dumps (.obj [("allowfrom", .arr (allowfrom.map Json.str))])) }

/-- The registration error text of source lines 53-57. -/
def registerErrMsg (status : Nat) (text : String) : String :=
  "Encountered an error while trying to register a new acme-dns account. HTTP status "
    ++ Nat.repr status ++ ", Response body: " ++ text

/-- `AcmeDnsClient.register_account` response handling (source lines 48-57):
exactly HTTP 201 succeeds with the parsed body; anything else raises a
`RuntimeError` carrying the status and the raw body. -/
def registerResult (res : Resp) : Except PyErr Json :=
  if res.status == 201 then
    match res.json with
    | some j => .ok j
    | none => .error .jsonDecodeError
  else .error (.runtimeError (registerErrMsg res.status res.text))

/-- `AcmeDnsClient.update_txt_record` request construction (source lines
61-66): the update body `{'subdomain': ..., 'txt': ...}` and the
authentication headers, with the account's fields looked up in source
order (`subdomain`, then `username`, then `password`), any missing one
raising `KeyError` before the call goes out. -/
def updateParts (account : Json) (txt : String) : Except PyErr (Json × Json) :=
  match account.getField "subdomain" with
  | .error e => .error e
  | .ok sub =>
      match account.getField "username" with
      | .error e => .error e
      | .ok user =>
          match account.getField "password" with
          | .error e => .error e
          | .ok pass =>
              .ok (Json.obj [("subdomain", sub), ("txt", .str txt)],
                   Json.obj [("X-Api-User", user), ("X-Api-Key", pass),
                             ("Content-Type", .str "application/json")])

/-- The update error text of source lines 72-83: request headers, request
body and parsed response body all rendered with `indent=2, sort_keys=True`. -/
def updateErrMsg (headers update : Json) (status : Nat) (bodyJson : Json) : String :=
  "Encountered an error while trying to update TXT record in acme-dns. \n------- Request headers:\n"
    ++ Json.dumpsSorted2 headers
    ++ "\n------- Request body:\n"
    ++ Json.dumpsSorted2 update
    ++ "\n------- Response HTTP status: "
    ++ Nat.repr status
    ++ "\n------- Response body: "
    ++ Json.dumpsSorted2 bodyJson

/-- `AcmeDnsClient.update_txt_record` response handling (source lines
67-83): exactly HTTP 200 succeeds; anything else re-parses the response
body (`res.json()`, raising a decode error when it is not JSON) and raises
the diagnostic `RuntimeError` built by `updateErrMsg`. -/
def updateResult (update headers : Json) (res : Resp) : Except PyErr Unit :=
  if res.status == 200 then .ok ()
  else
    match res.json with
    | none => .error .jsonDecodeError
    | some bodyJson => .error (.runtimeError (updateErrMsg headers update res.status bodyJson))

/-- The outgoing update call: its URL, its headers and the update object;
the wire body is `Json.dumps` of the update object. -/
structure UpdateReq where
  url : String
  headers : Json
  update : Json

/-- The externally observable steps of one run, in program order: the two
possible HTTP calls, a write of the whole store (`Storage.save` writes
`json.dumps` of the member list it carries), and a printed line. -/
inductive Ev where
  | registerCall (req : RegisterReq)
  | saveStore (data : List (String × Json))
  | updateCall (req : UpdateReq)
  | printLine (s : String)

/-- The outcome of `main()`: its ordered event trace and the process exit
status (0 from falling off the end, 1 from `sys.exit(1)` in the handler). -/
structure RunOut where
  events : List Ev
  exitCode : Nat

/-- The outcome of running the whole script: either an exception escaped at
module scope (the `os.environ[...]` reads of lines 24 and 28 happen before
`main`'s try block and are protected by nothing), or `main()` ran. -/
inductive ScriptOut where
  | uncaughtKeyError (envVar : String)
  | run (o : RunOut)

/-- The event trace of a script outcome (empty when nothing ran). -/
def ScriptOut.runEvents : ScriptOut → List Ev
  | .uncaughtKeyError _ => []
  | .run o => o.events

/-- The exit code of a script outcome. A module-scope `KeyError` also ends
the process with status 1, but through the interpreter's traceback, not
through `main`'s handler. -/
def ScriptOut.exitCode : ScriptOut → Nat
  | .uncaughtKeyError _ => 1
  | .run o => o.exitCode

/-- The `except Exception` handler at the bottom of `main` (source lines
156-158): print `str(e)` and `sys.exit(1)`. -/
def caught (evs : List Ev) (e : PyErr) : RunOut :=
  { events := evs ++ [.printLine (pyErrStr e)], exitCode := 1 }

/-- Source line 155, `client.update_txt_record(account, VALIDATION_TOKEN)`:
build the request parts (possible `KeyError`s first), emit the call, then
handle the response; any raise lands in `main`'s handler. -/
def doUpdate (token : String) (updRes : Resp) (evs : List Ev) (account : Json) : RunOut :=
  match updateParts account token with
  | .error e => caught evs e
  | .ok (upd, hdrs) =>
      let evs' := evs ++ [.updateCall { url := ACMEDNS_URL ++ "/update", headers := hdrs, update := upd }]
      match updateResult upd hdrs updRes with
      | .ok _ => { events := evs', exitCode := 0 }
      | .error e => caught evs' e

/-- Source lines 144-152, the registration branch of `main`: call
`/register`, store the new account under the (already stripped) domain,
save the store, print the CNAME notice, then fall through to the update.
`saveOk` says whether the storage path is writable (`Storage.save`, lines
109-117, raises its write `RuntimeError` otherwise). A non-dict store
would make `self._data[key] = value` raise `TypeError`. -/
def registerPath (ALLOW_FROM : List String) (DOMAIN VALIDATION_DOMAIN token : String)
    (data : Json) (saveOk : Bool) (regRes updRes : Resp) : RunOut :=
  let evs1 := [Ev.registerCall (registerRequest ALLOW_FROM)]
  match registerResult regRes with
  | .error e => caught evs1 e
  | .ok account =>
      match data with
      | .obj kvs =>
          let kvs' := Storage.put DOMAIN account kvs
          if saveOk then
            let evs2 := evs1 ++ [Ev.saveStore kvs']
            match account.getField "fulldomain" with
            | .error e => caught evs2 e
            | .ok fd =>
                let cname := VALIDATION_DOMAIN ++ ". CNAME " ++ pyStr fd ++ "."
                let evs3 := evs2 ++
                  [Ev.printLine ("Please add the following CNAME record to your main DNS zone:\n" ++ cname)]
                doUpdate token updRes evs3 account
          else caught evs1 (.runtimeError "ERROR: Could not write storage file.")
      | _ => caught evs1 .typeError

/-- The body of `main()`'s try block (source lines 136-155): load the
store, look up the account for the stripped domain, take the registration
branch when forced or when the account is missing or falsy, and always
finish with the TXT update. Every raise is caught by the handler. -/
def mainRun (FORCE_REGISTER : Bool) (ALLOW_FROM : List String)
    (DOMAIN VALIDATION_DOMAIN token : String) (file : FileState) (saveOk : Bool)
    (regRes updRes : Resp) : RunOut :=
  match Storage.load file with
  | .error e => caught [] e
  | .ok data =>
      match Storage.fetch DOMAIN data with
      | .error e => caught [] e
      | .ok accountOpt =>
          match accountOpt with
          | some account =>
              if FORCE_REGISTER || !pyTruthy account then
                registerPath ALLOW_FROM DOMAIN VALIDATION_DOMAIN token data saveOk regRes updRes
              else doUpdate token updRes [] account
          | none =>
              registerPath ALLOW_FROM DOMAIN VALIDATION_DOMAIN token data saveOk regRes updRes

/-- The resolved configuration value of spec section 3: URL (may be
absent), ordered allow-list, force-re-registration flag. -/
structure AcmeDnsConfig where
  url : Option String
  allow_from : List String
  force_register : Bool

/-- Extract a JSON array known to hold only strings. -/
def jsonStrings : List Json → Option (List String)
  | [] => some []
  | .str s :: rest => (fun l => s :: l) <$> jsonStrings rest
  | _ => none

/-- The config file's `url` field, when the file was present and the field
is a string. -/
def fileFieldUrl : Option (List (String × Json)) → Option String
  | some kvs =>
      match assocGet "url" kvs with
      | some (.str s) => some s
      | _ => none
  | none => none

/-- The config file's `allow_from` field, when present as an array of
strings. -/
def fileFieldAllow : Option (List (String × Json)) → Option (List String)
  | some kvs =>
      match assocGet "allow_from" kvs with
      | some (.arr xs) => jsonStrings xs
      | _ => none
  | none => none

/-- The config file's `force_register` field, when present as a boolean. -/
def fileFieldForce : Option (List (String × Json)) → Option Bool
  | some kvs =>
      match assocGet "force_register" kvs with
      | some (.bool b) => some b
      | _ => none
  | none => none

/-- Modelled from the spec: `build_acme_dns_config_from_env`, the
configuration resolver of spec section 4.1. Its implementation is absent
from src (only src/tests/test_acme_dns_auth.py exercises it), so this
definition follows the spec's words: read the optional JSON config file
(`file` is `none` when the file does not exist; an existing empty file
counts as supplying nothing, which the tests rely on); read the three
optional environment variables; fail with "Invalid configuration" when the
file is invalid JSON or an environment value fails to parse as its
expected type; fail with "No configuration supplied" when the file is
entirely absent and no environment variable supplies a URL; otherwise
resolve each field as environment over file over built-in default
(`allow_from = []`, `force_register = false`). -/
def build_acme_dns_config_from_env (env : List (String × String)) (file : Option String) :
    Except String AcmeDnsConfig :=
  let fileKvsE : Except String (Option (List (String × Json))) :=
    match file with
    | none => .ok none
    | some content =>
        if content.isEmpty then .ok none
        else
          match jsonParse content with
          | some (.obj kvs) => .ok (some kvs)
          | _ => .error "Invalid configuration"
  match fileKvsE with
  | .error e => .error e
  | .ok fileKvs =>
      let envAllowE : Except String (Option (List String)) :=
        match assocGet "ACMEDNS_ALLOW_FROM" env with
        | none => .ok none
        | some s =>
            match jsonParse s with
            | some (.arr xs) =>
                match jsonStrings xs with
                | some l => .ok (some l)
                | none => .error "Invalid configuration"
            | _ => .error "Invalid configuration"
      match envAllowE with
      | .error e => .error e
      | .ok envAllow =>
          let envForceE : Except String (Option Bool) :=
            match assocGet "ACMEDNS_FORCE_REGISTER" env with
            | none => .ok none
            | some s =>
                match jsonParse s with
                | some (.bool b) => .ok (some b)
                | _ => .error "Invalid configuration"
          match envForceE with
          | .error e => .error e
          | .ok envForce =>
              let envUrl := assocGet "ACMEDNS_URL" env
              if file.isNone && envUrl.isNone then .error "No configuration supplied"
              else
                .ok { url := envUrl <|> fileFieldUrl fileKvs
                      allow_from := (envAllow <|> fileFieldAllow fileKvs).getD []
                      force_register := (envForce <|> fileFieldForce fileKvs).getD false }

/-- The whole script: module scope first (source lines 24-28; the two
`os.environ[...]` reads raise an uncaught `KeyError` when the variable is
absent, before `main` is even entered), then `main()`. `FORCE_REGISTER`
and `ALLOW_FROM` are the two editable configuration constants of lines
17-19; their shipped values are `[]` and `False`. -/
def script (FORCE_REGISTER : Bool) (ALLOW_FROM : List String)
    (env : List (String × String)) (file : FileState) (saveOk : Bool)
    (regRes updRes : Resp) : ScriptOut :=
  match assocGet "CERTBOT_DOMAIN" env with
  | none => .uncaughtKeyError "CERTBOT_DOMAIN"
  | some rawDomain =>
      let DOMAIN := stripWildcard rawDomain
      let VALIDATION_DOMAIN := "_acme-challenge." ++ DOMAIN
      match assocGet "CERTBOT_VALIDATION" env with
      | none => .uncaughtKeyError "CERTBOT_VALIDATION"
      | some token =>
          .run (mainRun FORCE_REGISTER ALLOW_FROM DOMAIN VALIDATION_DOMAIN token
                  file saveOk regRes updRes)

/-- Does `hay` start with `needle`? -/
def leadsWith : List Char → List Char → Bool
  | [], _ => true
  | _ :: _, [] => false
  | a :: as, b :: bs => a == b && leadsWith as bs

/-- Does `needle` occur contiguously anywhere in `hay`? -/
def listOccurs (needle : List Char) : List Char → Bool
  | [] => needle.isEmpty
  | c :: rest => leadsWith needle (c :: rest) || listOccurs needle rest

/-- Substring test on strings, the `needle in hay` of Python. -/
def strContains (hay needle : String) : Bool := listOccurs needle.data hay.data

example : strContains "abcdef" "cde" = true := rfl
example : strContains "abcdef" "cea" = false := rfl

/-- Does this event leave the credential store (in memory and on disk)
untouched? Only the register call and the save write touch it. -/
def evKeepsStore : Ev → Bool
  | .registerCall _ => false
  | .saveStore _ => false
  | _ => true

/-- A trace that never registers and never writes the store file. -/
def noStoreMutation (evs : List Ev) : Bool := evs.all evKeepsStore

/-- The account record of the spec's end-to-end scenario. -/
def acctRecord : Json :=
  .obj [("subdomain", .str "abc"), ("username", .str "u"), ("password", .str "p"),
        ("fulldomain", .str "abc.auth.example.com")]

/-- The registration response body text of the end-to-end scenario,
parsing to `acctRecord`. -/
def acctRecordText : String :=
  "\x7b\"subdomain\": \"abc\", \"username\": \"u\", \"password\": \"p\", \"fulldomain\": \"abc.auth.example.com\"\x7d"

example : jsonParse acctRecordText = some acctRecord := rfl

/-- The update-call headers built from `acctRecord`. -/
def acctHeaders : Json :=
  .obj [("X-Api-User", .str "u"), ("X-Api-Key", .str "p"),
        ("Content-Type", .str "application/json")]

/-- A store file content holding `acctRecord` under `example.com`. -/
def storeWithAcctText : String :=
  "\x7b\"example.com\": " ++ acctRecordText ++ "\x7d"

example : jsonParse storeWithAcctText = some (.obj [("example.com", acctRecord)]) := rfl

/-- A success response (used where a call's response is irrelevant). -/
def respOk : Resp := { status := 200, text := "" }

/-- Every key of the store is free of a leading wildcard marker. -/
def cleanKeys (d : List (String × Json)) : Bool :=
  d.all fun p => !startsWithStar p.1

/-- A sequence of `Storage.put` operations applied in order. -/
def applyPuts (puts : List (String × Json)) (d : List (String × Json)) :
    List (String × Json) :=
  puts.foldl (fun acc p => Storage.put p.1 p.2 acc) d

theorem leadsWith_append (n suf : List Char) : leadsWith n (n ++ suf) = true := by
  induction n with
  | nil => rfl
  | cons c cs ih => simp [leadsWith, ih]

theorem listOccurs_nil_needle (hay : List Char) : listOccurs [] hay = true := by
  cases hay <;> simp [listOccurs, leadsWith, List.isEmpty]

theorem listOccurs_append (pre n suf : List Char) :
    listOccurs n (pre ++ (n ++ suf)) = true := by
  induction pre with
  | nil =>
      cases n with
      | nil => simpa using listOccurs_nil_needle suf
      | cons c cs =>
          have h := leadsWith_append (c :: cs) suf
          simp only [List.nil_append]
          simp [listOccurs, List.cons_append] at h ⊢
          exact Or.inl h
  | cons c cs ih => simp [listOccurs, ih]

theorem strContains_middle (a b c : String) : strContains (a ++ b ++ c) b = true := by
  have h : (a ++ b ++ c).data = a.data ++ (b.data ++ c.data) := by
    simp [String.data_append]
  simp [strContains, h, listOccurs_append]

theorem assocGet_assocPut_self (k : String) (v : Json) (d : List (String × Json)) :
    assocGet k (assocPut k v d) = some v := by
  induction d with
  | nil => simp [assocPut, assocGet]
  | cons p rest ih =>
      obtain ⟨pk, pv⟩ := p
      by_cases h : pk = k
      · subst h
        simp [assocPut, assocGet]
      · have h1 : (pk == k) = false := by
          rw [beq_eq_false_iff_ne]
          exact h
        have h2 : (k == pk) = false := by
          rw [beq_eq_false_iff_ne]
          exact fun e => h (Eq.symm e)
        simp [assocPut, assocGet, h1, h2, ih]

theorem strContains_of_data (m piece : String) (pre suf : List Char)
    (h : m.data = pre ++ (piece.data ++ suf)) : strContains m piece = true := by
  simp [strContains, h, listOccurs_append]

theorem cleanKeys_assocPut (k : String) (v : Json) (d : List (String × Json))
    (h0 : cleanKeys d = true) (hk : startsWithStar k = false) :
    cleanKeys (assocPut k v d) = true := by
  induction d with
  | nil => simp [assocPut, cleanKeys, hk]
  | cons p rest ih =>
      obtain ⟨pk, pv⟩ := p
      simp [cleanKeys, List.all_cons] at h0
      by_cases h : pk = k
      · subst h
        simp [assocPut, cleanKeys, List.all_cons, hk]
        exact h0.2
      · have h1 : (pk == k) = false := by
          rw [beq_eq_false_iff_ne]
          exact h
        have hrest := ih (by simp [cleanKeys]; exact h0.2)
        simp [cleanKeys] at hrest
        simp [assocPut, h1, cleanKeys, List.all_cons, h0.1]
        exact hrest

theorem cleanKeys_put (key : String) (v : Json) (d : List (String × Json))
    (h0 : cleanKeys d = true) (hk : startsWithStar (stripWildcard key) = false) :
    cleanKeys (Storage.put key v d) = true :=
  cleanKeys_assocPut (stripWildcard key) v d h0 hk

/-- Claim C8: for every value `v` and every prior store content, putting `v`
under the wildcard key `*.example.com` and then fetching the bare key
`example.com` returns `v` — `Storage.put` strips the wildcard marker, so the
two forms address the same entry. -/
theorem claim_C8_wildcard_and_base_unified (v : Json) (d : List (String × Json)) :
    Storage.fetch "example.com" (.obj (Storage.put "*.example.com" v d)) = .ok (some v) := by
  show Except.ok (assocGet "example.com" (assocPut (stripWildcard "*.example.com") v d))
      = Except.ok (some v)
  rw [show stripWildcard "*.example.com" = "example.com" from rfl]
  rw [assocGet_assocPut_self]

/-- Claim C5 as stated is false: `Storage.put` strips only one leading
`*.`, so the key `*.*.example.com` is stored as `*.example.com`, which
still begins with the wildcard marker. -/
theorem claim_C5_counterexample :
    Storage.put "*.*.example.com" (.str "v") [] = [("*.example.com", .str "v")] ∧
    startsWithStar "*.example.com" = true := ⟨rfl, rfl⟩

/-- Claim C5 amended: for every sequence of put operations whose keys carry
at most one leading wildcard marker (stripping one `*.` leaves no further
`*.`), starting from a store whose keys are free of the marker, every key
of the resulting mapping is free of a leading `*.`. -/
theorem claim_C5_put_keys_clean (puts : List (String × Json)) (d : List (String × Json))
    (h0 : cleanKeys d = true)
    (h1 : puts.all (fun p => !startsWithStar (stripWildcard p.1)) = true) :
    cleanKeys (applyPuts puts d) = true := by
  induction puts generalizing d with
  | nil => exact h0
  | cons p rest ih =>
      simp only [List.all_cons, Bool.and_eq_true] at h1
      have hp : startsWithStar (stripWildcard p.1) = false := by
        have := h1.1
        cases hs : startsWithStar (stripWildcard p.1)
        · rfl
        · rw [hs] at this
          exact absurd this (by decide)
      exact ih (Storage.put p.1 p.2 d) (cleanKeys_put p.1 p.2 d h0 hp) h1.2

/-- Witness for the amended claim C5 at a concrete put sequence. -/
theorem claim_C5_put_keys_clean_witness :
    cleanKeys (applyPuts [("*.example.com", .str "v"), ("other.org", .null)] []) = true :=
  claim_C5_put_keys_clean [("*.example.com", .str "v"), ("other.org", .null)] []
    (by decide) (by decide)

/-- Claim C6: `Storage.load` yields an empty mapping for a missing file and
for an existing empty readable file, a storage-read `ValueError` for an
existing unreadable file, and the storage-corruption `RuntimeError` for
readable non-empty content that is not valid JSON. -/
theorem claim_C6_load_cases :
    Storage.load .absent = .ok (.obj []) ∧
    Storage.load (.readable "") = .ok (.obj []) ∧
    Storage.load .unreadable
      = .error (.valueError "ERROR: Storage file exists but cannot be read") ∧
    ∀ c : String, jsonParse c = none → c ≠ "" →
      Storage.load (.readable c) = .error (.runtimeError "ERROR: Storage JSON is corrupted") := by
  refine ⟨rfl, rfl, rfl, ?_⟩
  intro c hparse hne
  have hlen : 0 < c.length := by
    obtain ⟨l⟩ := c
    cases l with
    | nil => exact absurd rfl hne
    | cons a as => simp [String.length]
  simp [Storage.load, hparse, hlen]

/-- Witness for claim C6 at concrete corrupted content. -/
theorem claim_C6_load_cases_witness :
    Storage.load (.readable "not json")
      = .error (.runtimeError "ERROR: Storage JSON is corrupted") :=
  claim_C6_load_cases.2.2.2 "not json" rfl (by decide)

/-- Claim C7: `register_account` sends `{allowfrom: allow_from}` as the body
exactly when the allow-list is non-empty and no body otherwise; exactly HTTP
201 yields the parsed response body as the account; any other status raises
a registration error whose message carries the status code and the raw
response body. -/
theorem claim_C7_register_account :
    (∀ af : List String, af ≠ [] →
        registerRequest af
          = { url := ACMEDNS_URL ++ "/register",
              body := some (Json.dumps (.obj [("allowfrom", .arr (af.map Json.str))])) }) ∧
    registerRequest [] = { url := ACMEDNS_URL ++ "/register", body := none } ∧
    (∀ (res : Resp) (j : Json), res.status = 201 → res.json = some j →
        registerResult res = .ok j) ∧
    (∀ res : Resp, res.status ≠ 201 →
        registerResult res = .error (.runtimeError (registerErrMsg res.status res.text)) ∧
        strContains (registerErrMsg res.status res.text) (Nat.repr res.status) = true ∧
        strContains (registerErrMsg res.status res.text) res.text = true) := by
  refine ⟨?_, rfl, ?_, ?_⟩
  · intro af haf
    have he : af.isEmpty = false := by
      cases af with
      | nil => exact absurd rfl haf
      | cons a as => rfl
    simp [registerRequest, he]
  · intro res j h1 h2
    simp [registerResult, h1, h2]
  · intro res h
    have hb : (res.status == 201) = false := by
      rw [beq_eq_false_iff_ne]
      exact h
    refine ⟨by simp [registerResult, hb], ?_, ?_⟩
    · exact strContains_of_data _ _
        ("Encountered an error while trying to register a new acme-dns account. HTTP status ").data
        ((", Response body: ").data ++ res.text.data)
        (by simp [registerErrMsg, String.data_append, List.append_assoc])
    · exact strContains_of_data _ _
        (("Encountered an error while trying to register a new acme-dns account. HTTP status ").data
          ++ (Nat.repr res.status).data ++ (", Response body: ").data)
        []
        (by simp [registerErrMsg, String.data_append, List.append_assoc])

/-- Witness for claim C7 at concrete inputs: a populated allow-list, a 201
success and a 400 failure. -/
theorem claim_C7_register_account_witness :
    (registerRequest ["192.168.1.0/24"]
      = { url := ACMEDNS_URL ++ "/register",
          body := some (Json.dumps (.obj [("allowfrom", .arr [.str "192.168.1.0/24"])])) }) ∧
    registerResult { status := 201, text := acctRecordText } = .ok acctRecord ∧
    (registerResult { status := 400, text := "bad" }
        = .error (.runtimeError (registerErrMsg 400 "bad")) ∧
      strContains (registerErrMsg 400 "bad") (Nat.repr 400) = true ∧
      strContains (registerErrMsg 400 "bad") "bad" = true) :=
  ⟨claim_C7_register_account.1 ["192.168.1.0/24"] (by decide),
   claim_C7_register_account.2.2.1 { status := 201, text := acctRecordText } acctRecord rfl rfl,
   claim_C7_register_account.2.2.2 { status := 400, text := "bad" } (by decide)⟩

/-- Claim C1 names a code bug: the two required environment values are read
at module scope (source lines 24 and 28), before `main`'s try/except is
entered, so when either is absent the `KeyError` escapes the top-level
handler — the handler's message print never runs (the interpreter dies with
a traceback), contradicting the claimed catch-print-exit behaviour. This
theorem evaluates the script at the two failing inputs: `CERTBOT_DOMAIN`
absent, and `CERTBOT_VALIDATION` absent. -/
theorem claim_C1_env_read_escapes_handler :
    script false [] [("CERTBOT_VALIDATION", "tok")] .absent true respOk respOk
      = .uncaughtKeyError "CERTBOT_DOMAIN" ∧
    script false [] [("CERTBOT_DOMAIN", "example.com")] .absent true respOk respOk
      = .uncaughtKeyError "CERTBOT_VALIDATION" := ⟨rfl, rfl⟩

/-- Claim C2: for domain `*.example.com` with no existing account and a 201
registration answering with the scenario's record, the run stores the
record under the stripped key `example.com`, prints exactly the CNAME line
`_acme-challenge.example.com. CNAME abc.auth.example.com.`, and the update
call carries subdomain `abc` and the supplied validation token, whatever
that token is. -/
theorem claim_C2_first_registration_scenario (tok : String) :
    script false [] [("CERTBOT_DOMAIN", "*.example.com"), ("CERTBOT_VALIDATION", tok)]
      .absent true { status := 201, text := acctRecordText } respOk
    = .run { events := [
               .registerCall { url := "https://auth.acme-dns.io/register", body := none },
               .saveStore [("example.com", acctRecord)],
               .printLine ("Please add the following CNAME record to your main DNS zone:\n"
                 ++ "_acme-challenge.example.com. CNAME abc.auth.example.com."),
               .updateCall { url := "https://auth.acme-dns.io/update",
                             headers := acctHeaders,
                             update := .obj [("subdomain", .str "abc"), ("txt", .str tok)] } ],
             exitCode := 0 } := rfl

/-- Claim C4 as stated is false at a concrete input: on an HTTP 400 whose
body is the compact JSON text shown, the run does exit with status 1, but
the printed message carries `json.dumps(res.json(), indent=2,
sort_keys=True)` — a re-serialization of the parsed body — so the raw
response body text never appears verbatim in the message. -/
theorem claim_C4_counterexample :
    script false [] [("CERTBOT_DOMAIN", "example.com"), ("CERTBOT_VALIDATION", "t")]
      (.readable storeWithAcctText) true respOk { status := 400, text := "\x7b\"error\":\"x\"\x7d" }
    = .run { events := [
               .updateCall { url := "https://auth.acme-dns.io/update",
                             headers := acctHeaders,
                             update := .obj [("subdomain", .str "abc"), ("txt", .str "t")] },
               .printLine (updateErrMsg acctHeaders
                 (.obj [("subdomain", .str "abc"), ("txt", .str "t")]) 400
                 (.obj [("error", .str "x")])) ],
             exitCode := 1 } ∧
    strContains (updateErrMsg acctHeaders
        (.obj [("subdomain", .str "abc"), ("txt", .str "t")]) 400
        (.obj [("error", .str "x")]))
      "\x7b\"error\":\"x\"\x7d" = false := ⟨rfl, by decide⟩

/-- Claim C4 amended: for every non-200 response whose body parses as JSON,
`update_txt_record` fails with an error message that contains the outgoing
headers, the outgoing body, the response status, and the parsed response
body re-serialized with indent 2 and sorted keys (deterministic ordering) —
rather than the raw response body verbatim — and on such a failure the run
exits with status 1 with that message printed; a body that is not valid
JSON raises a decode error instead. -/
theorem claim_C4_update_error_diagnostics :
    (∀ (sub user pass : Json) (tok : String) (res : Resp) (bj : Json),
      res.status ≠ 200 → res.json = some bj →
      updateResult (.obj [("subdomain", sub), ("txt", .str tok)])
          (.obj [("X-Api-User", user), ("X-Api-Key", pass),
                 ("Content-Type", .str "application/json")]) res
        = .error (.runtimeError (updateErrMsg
            (.obj [("X-Api-User", user), ("X-Api-Key", pass),
                   ("Content-Type", .str "application/json")])
            (.obj [("subdomain", sub), ("txt", .str tok)]) res.status bj))) ∧
    (∀ (hdrs upd bj : Json) (st : Nat),
      strContains (updateErrMsg hdrs upd st bj) (Json.dumpsSorted2 hdrs) = true ∧
      strContains (updateErrMsg hdrs upd st bj) (Json.dumpsSorted2 upd) = true ∧
      strContains (updateErrMsg hdrs upd st bj) (Nat.repr st) = true ∧
      strContains (updateErrMsg hdrs upd st bj) (Json.dumpsSorted2 bj) = true) ∧
    strContains (updateErrMsg acctHeaders
        (.obj [("subdomain", .str "abc"), ("txt", .str "t")]) 400
        (.obj [("error", .str "x")]))
      (Json.dumpsSorted2 (.obj [("error", .str "x")])) = true ∧
    (script false [] [("CERTBOT_DOMAIN", "example.com"), ("CERTBOT_VALIDATION", "t")]
        (.readable storeWithAcctText) true respOk
        { status := 400, text := "\x7b\"error\":\"x\"\x7d" }).exitCode = 1 := by
  refine ⟨?_, ?_, ?_, rfl⟩
  · intro sub user pass tok res bj hst hj
    have hb : (res.status == 200) = false := by
      rw [beq_eq_false_iff_ne]
      exact hst
    simp [updateResult, hb, hj]
  · intro hdrs upd bj st
    refine ⟨?_, ?_, ?_, ?_⟩
    · exact strContains_of_data _ _
        ("Encountered an error while trying to update TXT record in acme-dns. \n------- Request headers:\n").data
        (("\n------- Request body:\n" ++ Json.dumpsSorted2 upd
          ++ "\n------- Response HTTP status: " ++ Nat.repr st
          ++ "\n------- Response body: " ++ Json.dumpsSorted2 bj).data)
        (by simp [updateErrMsg, String.data_append, List.append_assoc])
    · exact strContains_of_data _ _
        (("Encountered an error while trying to update TXT record in acme-dns. \n------- Request headers:\n"
          ++ Json.dumpsSorted2 hdrs ++ "\n------- Request body:\n").data)
        (("\n------- Response HTTP status: " ++ Nat.repr st
          ++ "\n------- Response body: " ++ Json.dumpsSorted2 bj).data)
        (by simp [updateErrMsg, String.data_append, List.append_assoc])
    · exact strContains_of_data _ _
        (("Encountered an error while trying to update TXT record in acme-dns. \n------- Request headers:\n"
          ++ Json.dumpsSorted2 hdrs ++ "\n------- Request body:\n" ++ Json.dumpsSorted2 upd
          ++ "\n------- Response HTTP status: ").data)
        (("\n------- Response body: " ++ Json.dumpsSorted2 bj).data)
        (by simp [updateErrMsg, String.data_append, List.append_assoc])
    · exact strContains_of_data _ _
        (("Encountered an error while trying to update TXT record in acme-dns. \n------- Request headers:\n"
          ++ Json.dumpsSorted2 hdrs ++ "\n------- Request body:\n" ++ Json.dumpsSorted2 upd
          ++ "\n------- Response HTTP status: " ++ Nat.repr st
          ++ "\n------- Response body: ").data)
        []
        (by simp [updateErrMsg, String.data_append, List.append_assoc])
  · exact (by decide)

/-- Witness for the amended claim C4 at a concrete non-200 response. -/
theorem claim_C4_update_error_diagnostics_witness :
    updateResult (.obj [("subdomain", .str "abc"), ("txt", .str "t")]) acctHeaders
        { status := 400, text := "\x7b\"error\":\"x\"\x7d" }
      = .error (.runtimeError (updateErrMsg acctHeaders
          (.obj [("subdomain", .str "abc"), ("txt", .str "t")]) 400
          (.obj [("error", .str "x")]))) :=
  claim_C4_update_error_diagnostics.1 (.str "abc") (.str "u") (.str "p") "t"
    { status := 400, text := "\x7b\"error\":\"x\"\x7d" } (.obj [("error", .str "x")])
    (by decide) rfl

theorem stripWildcard_of_clean (s : String) (h : startsWithStar s = false) :
    stripWildcard s = s := by
  simp [stripWildcard, h]

/-- Claim C9: when the store already holds a truthy account record for the
stripped domain and `FORCE_REGISTER` is false, the run performs no register
call and never writes the store file — its first (and only non-print)
action is the update call carrying the stored account's credentials. -/
theorem claim_C9_existing_account_only_update
    (d tok c : String) (kvs : List (String × Json)) (acct sub user pass : Json)
    (saveOk : Bool) (regRes updRes : Resp)
    (hc : jsonParse c = some (.obj kvs))
    (hacct : assocGet (stripWildcard d) kvs = some acct)
    (htruthy : pyTruthy acct = true)
    (hsub : acct.getField "subdomain" = .ok sub)
    (huser : acct.getField "username" = .ok user)
    (hpass : acct.getField "password" = .ok pass) :
    noStoreMutation (ScriptOut.runEvents
        (script false [] [("CERTBOT_DOMAIN", d), ("CERTBOT_VALIDATION", tok)]
          (.readable c) saveOk regRes updRes)) = true ∧
    (ScriptOut.runEvents
        (script false [] [("CERTBOT_DOMAIN", d), ("CERTBOT_VALIDATION", tok)]
          (.readable c) saveOk regRes updRes)).head?
      = some (.updateCall { url := ACMEDNS_URL ++ "/update",
                            headers := .obj [("X-Api-User", user), ("X-Api-Key", pass),
                                             ("Content-Type", .str "application/json")],
                            update := .obj [("subdomain", sub), ("txt", .str tok)] }) := by
  have h1 : script false [] [("CERTBOT_DOMAIN", d), ("CERTBOT_VALIDATION", tok)]
      (.readable c) saveOk regRes updRes
      = .run (mainRun false [] (stripWildcard d) ("_acme-challenge." ++ stripWildcard d) tok
          (.readable c) saveOk regRes updRes) := rfl
  rw [h1]
  simp only [mainRun, Storage.load, hc, Storage.fetch, hacct, htruthy, Bool.false_or,
    Bool.not_true, if_false, doUpdate, updateParts, hsub, huser, hpass]
  cases hres : updateResult (.obj [("subdomain", sub), ("txt", .str tok)])
      (.obj [("X-Api-User", user), ("X-Api-Key", pass), ("Content-Type", .str "application/json")])
      updRes with
  | ok u => simp [ScriptOut.runEvents, noStoreMutation, evKeepsStore]
  | error e => simp [ScriptOut.runEvents, noStoreMutation, evKeepsStore, caught]

/-- Witness for claim C9 at a concrete store holding the scenario account. -/
theorem claim_C9_existing_account_only_update_witness :
    noStoreMutation (ScriptOut.runEvents
        (script false [] [("CERTBOT_DOMAIN", "example.com"), ("CERTBOT_VALIDATION", "t")]
          (.readable storeWithAcctText) true respOk respOk)) = true :=
  (claim_C9_existing_account_only_update "example.com" "t" storeWithAcctText
    [("example.com", acctRecord)] acctRecord (.str "abc") (.str "u") (.str "p")
    true respOk respOk rfl rfl rfl rfl rfl rfl).1

/-- Claim C10: when no account exists for the stripped domain, registration
succeeds with HTTP 201 and the save goes through, but the subsequent update
fails, the full trace shows the store write strictly preceding the update
call and the run exiting with status 1 — and fetching the stripped domain
from the saved mapping returns the new account, so a re-run would find it. -/
theorem claim_C10_save_precedes_failed_update
    (d tok c : String) (kvs : List (String × Json)) (acct sub user pass bj : Json) (fd : String)
    (regRes updRes : Resp)
    (hc : jsonParse c = some (.obj kvs))
    (hnone : assocGet (stripWildcard d) kvs = none)
    (hreg : regRes.status = 201)
    (hregbody : regRes.json = some acct)
    (hfd : acct.getField "fulldomain" = .ok (.str fd))
    (hsub : acct.getField "subdomain" = .ok sub)
    (huser : acct.getField "username" = .ok user)
    (hpass : acct.getField "password" = .ok pass)
    (hupd : updRes.status ≠ 200)
    (hupdbody : updRes.json = some bj)
    (hclean : startsWithStar (stripWildcard d) = false) :
    script false [] [("CERTBOT_DOMAIN", d), ("CERTBOT_VALIDATION", tok)]
      (.readable c) true regRes updRes
    = .run { events := [
               .registerCall { url := ACMEDNS_URL ++ "/register", body := none },
               .saveStore (Storage.put (stripWildcard d) acct kvs),
               .printLine ("Please add the following CNAME record to your main DNS zone:\n"
                 ++ ("_acme-challenge." ++ stripWildcard d ++ ". CNAME " ++ fd ++ ".")),
               .updateCall { url := ACMEDNS_URL ++ "/update",
                             headers := .obj [("X-Api-User", user), ("X-Api-Key", pass),
                                              ("Content-Type", .str "application/json")],
                             update := .obj [("subdomain", sub), ("txt", .str tok)] },
               .printLine (updateErrMsg
                 (.obj [("X-Api-User", user), ("X-Api-Key", pass),
                        ("Content-Type", .str "application/json")])
                 (.obj [("subdomain", sub), ("txt", .str tok)]) updRes.status bj) ],
             exitCode := 1 } ∧
    Storage.fetch (stripWildcard d) (.obj (Storage.put (stripWildcard d) acct kvs))
      = .ok (some acct) := by
  have h1 : script false [] [("CERTBOT_DOMAIN", d), ("CERTBOT_VALIDATION", tok)]
      (.readable c) true regRes updRes
      = .run (mainRun false [] (stripWildcard d) ("_acme-challenge." ++ stripWildcard d) tok
          (.readable c) true regRes updRes) := rfl
  have hb200 : (updRes.status == 200) = false := by
    rw [beq_eq_false_iff_ne]
    exact hupd
  constructor
  · rw [h1]
    simp only [mainRun, Storage.load, hc, Storage.fetch, hnone, registerPath,
      registerRequest, List.isEmpty_nil, if_true, registerResult, hreg, hregbody,
      beq_self_eq_true, if_pos, hfd, pyStr, doUpdate, updateParts, hsub, huser, hpass,
      updateResult, hb200, hupdbody, caught, pyErrStr, List.append_assoc,
      List.cons_append, List.nil_append]
    simp
  · show Except.ok (assocGet (stripWildcard d)
        (assocPut (stripWildcard (stripWildcard d)) acct kvs)) = Except.ok (some acct)
    rw [stripWildcard_of_clean _ hclean, assocGet_assocPut_self]

/-- Witness for claim C10: after the failed update of the concrete scenario,
the saved store still yields the freshly registered account. -/
theorem claim_C10_save_precedes_failed_update_witness :
    Storage.fetch (stripWildcard "*.example.com")
        (.obj (Storage.put (stripWildcard "*.example.com") acctRecord []))
      = .ok (some acctRecord) :=
  (claim_C10_save_precedes_failed_update "*.example.com" "t" "\x7b\x7d" [] acctRecord
    (.str "abc") (.str "u") (.str "p") (.obj [("error", .str "x")]) "abc.auth.example.com"
    { status := 201, text := acctRecordText }
    { status := 400, text := "\x7b\"error\":\"x\"\x7d" }
    rfl rfl rfl rfl rfl rfl rfl rfl (by decide) rfl rfl).2

/-- Claim C3, settled against the spec-modelled resolver: a field supplied
by both an environment variable and the config file resolves to the
environment value; a field absent from both resolves to the built-in
default (`allow_from = []`, `force_register = false`); with no relevant
environment variable set, a field present in the file resolves to the
file's value. -/
theorem claim_C3_config_resolution :
    (∀ (eu ea ef fc : String) (xs : List Json) (la : List String) (b : Bool)
        (fkvs : List (String × Json)),
      jsonParse ea = some (.arr xs) → jsonStrings xs = some la →
      jsonParse ef = some (.bool b) →
      fc.isEmpty = false → jsonParse fc = some (.obj fkvs) →
      build_acme_dns_config_from_env
          [("ACMEDNS_URL", eu), ("ACMEDNS_ALLOW_FROM", ea), ("ACMEDNS_FORCE_REGISTER", ef)]
          (some fc)
        = .ok { url := some eu, allow_from := la, force_register := b }) ∧
    (∀ (fc : String) (fkvs : List (String × Json)),
      fc.isEmpty = false → jsonParse fc = some (.obj fkvs) →
      assocGet "allow_from" fkvs = none → assocGet "force_register" fkvs = none →
      build_acme_dns_config_from_env [] (some fc)
        = .ok { url := fileFieldUrl (some fkvs), allow_from := [], force_register := false }) ∧
    (∀ (fc fu : String) (xs : List Json) (fl : List String) (fb : Bool)
        (fkvs : List (String × Json)),
      fc.isEmpty = false → jsonParse fc = some (.obj fkvs) →
      assocGet "url" fkvs = some (.str fu) →
      assocGet "allow_from" fkvs = some (.arr xs) → jsonStrings xs = some fl →
      assocGet "force_register" fkvs = some (.bool fb) →
      build_acme_dns_config_from_env [] (some fc)
        = .ok { url := some fu, allow_from := fl, force_register := fb }) := by
  refine ⟨?_, ?_, ?_⟩
  · intro eu ea ef fc xs la b fkvs hea hstr hef hne hfc
    simp only [build_acme_dns_config_from_env, assocGet, hne, hfc, hea, hstr, hef]
    simp [hea, hstr, hef]
  · intro fc fkvs hne hfc hallow hforce
    simp only [build_acme_dns_config_from_env, assocGet, hne, hfc]
    simp [fileFieldAllow, fileFieldForce, hallow, hforce]
  · intro fc fu xs fl fb fkvs hne hfc hurl hallow hstr hforce
    simp only [build_acme_dns_config_from_env, assocGet, hne, hfc]
    simp [fileFieldUrl, fileFieldAllow, fileFieldForce, hurl, hallow, hstr, hforce]

/-- Witness for claim C3: all three environment variables set over a file
that also sets `url`; the environment wins on every field. -/
theorem claim_C3_config_resolution_witness :
    build_acme_dns_config_from_env
        [("ACMEDNS_URL", "https://acme-dns.env.example.com"),
         ("ACMEDNS_ALLOW_FROM", "[\"192.168.1.0/24\"]"),
         ("ACMEDNS_FORCE_REGISTER", "true")]
        (some "\x7b\"url\": \"https://acme-dns.file.example.com\"\x7d")
      = .ok { url := some "https://acme-dns.env.example.com",
              allow_from := ["192.168.1.0/24"], force_register := true } :=
  claim_C3_config_resolution.1 "https://acme-dns.env.example.com" "[\"192.168.1.0/24\"]"
    "true" "\x7b\"url\": \"https://acme-dns.file.example.com\"\x7d"
    [.str "192.168.1.0/24"] ["192.168.1.0/24"] true
    [("url", .str "https://acme-dns.file.example.com")]
    rfl rfl rfl rfl rfl
